import Mathlib

/-!
Verification of the NFT accessor layer, the fixed-capacity Blob type, and the
smart-escrow example of the xrpl-wasm-std repository.

The host runtime is an external collaborator reached through FFI calls that
return one signed integer and optionally write into a caller-supplied byte
buffer. Each embedded function therefore takes the observable behaviour of its
single host call as explicit parameters: the signed return code, and the
contents of the output buffer after the call. Byte buffers are modelled as
lists of naturals; machine integers as Int/Nat with explicit truncation where
the source casts.
-/

set_option maxRecDepth 8192

namespace XrplStd

/-- Modelled from the spec: the host error type (host::Error, not under src/).
Section 7 gives the closed taxonomy: field not found / empty, buffer too small
for result, invalid argument to host call, internal/unspecified host error, and
one catch-all for unrecognized negative codes preserved as an opaque numeric
code. The concrete numeric codes of the named kinds are representative negative
values; no claim depends on the particular numbers, only on the kinds being
distinct and their codes negative. -/
inductive Error where
  | FieldNotFound
  | BufferTooSmall
  | InvalidArgument
  | InternalError
  | Unrecognized (c : Int)
deriving DecidableEq

/-- Modelled from the spec: the code-to-kind mapping of section 4.2 / 9, a
single pure table shared by every accessor; unrecognized codes are preserved
as an opaque numeric code. -/
def Error.from_code (code : Int) : Error :=
  if code = -1 then Error.InternalError
  else if code = -2 then Error.FieldNotFound
  else if code = -3 then Error.BufferTooSmall
  else if code = -4 then Error.InvalidArgument
  else Error.Unrecognized code

/-- Modelled from the spec: error codes are reported verbatim (section 1
non-goals), so each kind renders back to its numeric code. -/
def Error.code : Error → Int
  | Error.InternalError => -1
  | Error.FieldNotFound => -2
  | Error.BufferTooSmall => -3
  | Error.InvalidArgument => -4
  | Error.Unrecognized c => c

/-- Embeds host::Result: success carrying a typed payload, or failure carrying
an error kind. -/
inductive Result (α : Type) where
  | Ok (v : α)
  | Err (e : Error)
deriving DecidableEq

/-- Embeds Result::is_ok. -/
def Result.is_ok {α : Type} : Result α → Bool
  | Result.Ok _ => true
  | Result.Err _ => false

/-- Embeds Blob (src/xrpl-wasm-std/src/core/types/blob.rs): a 1024-byte buffer
(here a list of bytes) paired with a logical length. -/
structure Blob where
  data : List Nat
  len : Nat
deriving DecidableEq

/-- Embeds Blob::new. The source asserts len <= data.len() and panics
otherwise; the panic is modelled as none. -/
def Blob.new (data : List Nat) (len : Nat) : Option Blob :=
  if len ≤ data.length then some { data := data, len := len } else none

/-- Embeds Blob::as_slice: only the first len bytes. -/
def Blob.as_slice (b : Blob) : List Nat := b.data.take b.len

/-- Embeds AccountID (a fixed-width 20-byte wrapper; the spec classifies it as
carrying no decoding logic beyond fixed-width byte copies). -/
structure AccountID where
  bytes : List Nat
deriving DecidableEq

/-- Size of an NFTokenID in bytes. -/
def NFTID_SIZE : Nat := 32

/-- Maximum size for NFT URI data. -/
def NFT_URI_MAX_SIZE : Nat := 256

/-- Embeds NFToken (src/xrpl-wasm-std/src/core/types/nft.rs): a wrapper around
the 32-byte identifier. -/
structure NFToken where
  id : List Nat
deriving DecidableEq

/-- Embeds NFToken::flags. The host call get_nft_flags returns a signed code;
a non-negative code is cast to u16 (code as u16, i.e. reduced mod 2^16), a
negative code is decoded as an error. -/
def NFToken.flags (self : NFToken) (hostCode : Int) : Result Nat :=
  if 0 ≤ hostCode then Result.Ok (hostCode.toNat % 65536)
  else Result.Err (Error.from_code hostCode)

/-- Embeds NFToken::transfer_fee: same shape as flags (no output buffer;
code as u16 on a non-negative code). -/
def NFToken.transfer_fee (self : NFToken) (hostCode : Int) : Result Nat :=
  if 0 ≤ hostCode then Result.Ok (hostCode.toNat % 65536)
  else Result.Err (Error.from_code hostCode)

/-- Embeds NFToken::issuer: the host writes into a 20-byte account buffer;
a strictly positive code wraps the buffer as an AccountID, otherwise the code
is decoded as an error. account_buf is the buffer contents after the call. -/
def NFToken.issuer (self : NFToken) (hostCode : Int) (account_buf : List Nat) :
    Result AccountID :=
  if 0 < hostCode then Result.Ok { bytes := account_buf }
  else Result.Err (Error.from_code hostCode)

/-- Embeds u32::from_be_bytes on a byte list (big-endian). -/
def u32_from_be_bytes (b : List Nat) : Nat :=
  b.foldl (fun acc x => acc * 256 + x) 0

/-- Embeds NFToken::taxon: the host writes a 4-byte buffer; a strictly positive
code decodes it as a big-endian u32, otherwise the code is decoded as an
error. The returned byte count is not compared against 4. -/
def NFToken.taxon (self : NFToken) (hostCode : Int) (taxon_buf : List Nat) :
    Result Nat :=
  if 0 < hostCode then Result.Ok (u32_from_be_bytes taxon_buf)
  else Result.Err (Error.from_code hostCode)

/-- Embeds NFToken::serial: identical shape to taxon. -/
def NFToken.serial (self : NFToken) (hostCode : Int) (serial_buf : List Nat) :
    Result Nat :=
  if 0 < hostCode then Result.Ok (u32_from_be_bytes serial_buf)
  else Result.Err (Error.from_code hostCode)

/-- Embeds NFToken::uri: the host call get_nft writes into a 256-byte scratch
buffer (uri_buf is its contents after the call); on a strictly positive code
the first copy_len = min(min(code, uri_buf.len()), 1024) bytes are copied into
a zeroed 1024-byte canonical buffer and wrapped by Blob::new; none models the
panic of Blob::new. A non-positive code is decoded as an error. -/
def NFToken.uri (self : NFToken) (owner : AccountID) (hostCode : Int)
    (uri_buf : List Nat) : Option (Result Blob) :=
  if 0 < hostCode then
    let actual_len := hostCode.toNat
    let copy_len := min (min actual_len uri_buf.length) 1024
    let blob_data := uri_buf.take copy_len ++ List.replicate (1024 - copy_len) 0
    (Blob.new blob_data copy_len).map Result.Ok
  else some (Result.Err (Error.from_code hostCode))

/-- Embeds NFToken::is_owned_by: true exactly when the uri lookup is Ok; the
Option layer propagates the (never taken) panic of uri. -/
def NFToken.is_owned_by (self : NFToken) (owner : AccountID) (hostCode : Int)
    (uri_buf : List Nat) : Option Bool :=
  (self.uri owner hostCode uri_buf).map Result.is_ok

/-- Size of the contract data buffer ([u8; XRPL_CONTRACT_DATA_SIZE], a
4096-byte buffer per the source doc of get_nft). -/
def XRPL_CONTRACT_DATA_SIZE : Nat := 4096

/-- Embeds the ContractData byte array. -/
abbrev ContractData := List Nat

/-- Embeds get_nft (src/xrpl-wasm-std/src/core/ledger_objects/nft.rs): one
host call; a strictly positive code returns the output buffer, any other code
(zero included) is decoded as an error. data is the buffer contents after the
call. -/
def get_nft (owner : AccountID) (nft : List Nat) (hostCode : Int)
    (data : List Nat) : Result (List Nat) :=
  if 0 < hostCode then Result.Ok data
  else Result.Err (Error.from_code hostCode)

/-- Embeds is_nft_owned_by: get_nft success collapsed to a boolean. -/
def is_nft_owned_by (owner : AccountID) (nft_id : List Nat) (hostCode : Int)
    (data : List Nat) : Bool :=
  (get_nft owner nft_id hostCode data).is_ok

/-- Embeds get_first_memo (src/examples/smart-escrows/nft_owner/src/lib.rs):
one get_tx_nested_field host call addressing Memos[0].MemoData; a strictly
positive code yields Ok(Some(data)), a code of exactly 0 yields
Err(InternalError), and a negative code is decoded through from_code. -/
def get_first_memo (hostCode : Int) (data : ContractData) :
    Result (Option ContractData) :=
  if 0 < hostCode then Result.Ok (some data)
  else if hostCode = 0 then Result.Err Error.InternalError
  else Result.Err (Error.from_code hostCode)

/-- Embeds finish (src/examples/smart-escrows/nft_owner/src/lib.rs). Its three
host interactions are passed explicitly: the nested-field call behind
get_first_memo (memoCode, memoData), the outcome of the
get_current_escrow().get_destination() call (destRes, whose implementation is
outside the given sources and is passed as its Result), and the get_nft call
behind is_nft_owned_by (nftCode, nftData). Any error from get_first_memo or
the destination lookup is surfaced as that error code; otherwise the ownership
check decides between 1 and 0. -/
def finish (memoCode : Int) (memoData : ContractData)
    (destRes : Result AccountID) (nftCode : Int) (nftData : List Nat) : Int :=
  match get_first_memo memoCode memoData with
  | Result.Err e => e.code
  | Result.Ok none => 0
  | Result.Ok (some memo) =>
    let nft_id := memo.take NFTID_SIZE
    match destRes with
    | Result.Err e => e.code
    | Result.Ok destination =>
      if is_nft_owned_by destination nft_id nftCode nftData then 1 else 0

/-- A fixed host behaviour: for each host function, the reply (signed code
and, where the call writes into a buffer, the buffer contents after the call)
as a function of the bytes the accessor passes in. Used to state that the
accessors are pure in the host behaviour and the identifier. -/
structure Host where
  get_nft_flags : List Nat → Int
  get_nft_transfer_fee : List Nat → Int
  get_nft_issuer : List Nat → Int × List Nat
  get_nft_taxon : List Nat → Int × List Nat
  get_nft_serial : List Nat → Int × List Nat
  get_nft : List Nat → List Nat → Int × List Nat

/-- NFToken::flags run against a fixed host behaviour. -/
def flagsVia (h : Host) (t : NFToken) : Result Nat :=
  t.flags (h.get_nft_flags t.id)

/-- NFToken::transfer_fee run against a fixed host behaviour. -/
def transferFeeVia (h : Host) (t : NFToken) : Result Nat :=
  t.transfer_fee (h.get_nft_transfer_fee t.id)

/-- NFToken::issuer run against a fixed host behaviour. -/
def issuerVia (h : Host) (t : NFToken) : Result AccountID :=
  t.issuer (h.get_nft_issuer t.id).1 (h.get_nft_issuer t.id).2

/-- NFToken::taxon run against a fixed host behaviour. -/
def taxonVia (h : Host) (t : NFToken) : Result Nat :=
  t.taxon (h.get_nft_taxon t.id).1 (h.get_nft_taxon t.id).2

/-- NFToken::serial run against a fixed host behaviour. -/
def serialVia (h : Host) (t : NFToken) : Result Nat :=
  t.serial (h.get_nft_serial t.id).1 (h.get_nft_serial t.id).2

/-- NFToken::uri run against a fixed host behaviour. -/
def uriVia (h : Host) (t : NFToken) (owner : AccountID) : Option (Result Blob) :=
  t.uri owner (h.get_nft owner.bytes t.id).1 (h.get_nft owner.bytes t.id).2

/-- A concrete host behaviour for witnesses: every call fails with code 0 and
an empty buffer. -/
def silentHost : Host where
  get_nft_flags := fun _ => 0
  get_nft_transfer_fee := fun _ => 0
  get_nft_issuer := fun _ => (0, [])
  get_nft_taxon := fun _ => (0, [])
  get_nft_serial := fun _ => (0, [])
  get_nft := fun _ _ => (0, [])

/-- The logical length of the Blob inside a successful uri result (0 on an
error). -/
def Result.blobLen : Result Blob → Nat
  | Result.Ok b => b.len
  | Result.Err _ => 0

/-- The logical length inside an optional uri result. -/
def blobLenOf : Option (Result Blob) → Option Nat
  | some (Result.Ok b) => some b.len
  | _ => none

theorem Error.code_from_code (c : Int) : (Error.from_code c).code = c := by
  unfold Error.from_code
  split_ifs with h1 h2 h3 h4 <;> simp [Error.code, *]

theorem uri_eval (t : NFToken) (owner : AccountID) (c : Int)
    (uri_buf : List Nat) (hbuf : uri_buf.length = 256) :
    t.uri owner c uri_buf =
      if 0 < c then
        some (Result.Ok
          { data := uri_buf.take (min c.toNat 256)
              ++ List.replicate (1024 - min c.toNat 256) 0,
            len := min c.toNat 256 })
      else some (Result.Err (Error.from_code c)) := by
  by_cases h : 0 < c
  · have hkle : min c.toNat 256 ≤ 256 := min_le_right _ _
    have hk : min (min c.toNat uri_buf.length) 1024 = min c.toNat 256 := by
      rw [hbuf]
      exact min_eq_left (le_trans hkle (by norm_num))
    have htake : (uri_buf.take (min c.toNat 256)).length = min c.toNat 256 := by
      rw [List.length_take, hbuf]
      exact min_eq_left hkle
    have hlen : (uri_buf.take (min c.toNat 256)
        ++ List.replicate (1024 - min c.toNat 256) 0).length = 1024 := by
      rw [List.length_append, htake, List.length_replicate]
      omega
    simp only [NFToken.uri, hk, if_pos h]
    simp [Blob.new, hlen, le_trans hkle (by norm_num : (256 : Nat) ≤ 1024)]
  · simp [NFToken.uri, h]

/-- C3 counterexample: for host return code 300 against the 256-byte scratch
buffer the claim promises a Blob of logical length 300, but uri clamps the
copied length to the scratch buffer and produces length 256. -/
theorem C3_counterexample :
    blobLenOf (NFToken.uri { id := List.replicate 32 0 }
      { bytes := List.replicate 20 0 } 300 (List.replicate 256 7)) = some 256
    ∧ ((256 : Nat) = 300 → False) := by
  constructor
  · rw [uri_eval _ _ _ _ (by simp)]
    norm_num [blobLenOf]
  · decide

/-- C3 (amended): for every host return code n > 0, uri returns a Blob whose
logical length is min(n, 256) — the byte count clamped to the 256-byte scratch
buffer, hence equal to n exactly when n ≤ 256 — and whose as_slice equals the
first min(n, 256) bytes the host wrote into the scratch buffer; for every
n ≤ 0 it returns the error decoded from n. -/
theorem C3_amended_uri (t : NFToken) (owner : AccountID) (n : Int)
    (uri_buf : List Nat) (hbuf : uri_buf.length = 256) :
    (0 < n → ∃ b : Blob,
      t.uri owner n uri_buf = some (Result.Ok b)
      ∧ b.len = min n.toNat 256
      ∧ b.as_slice = uri_buf.take (min n.toNat 256))
    ∧ (n ≤ 0 → t.uri owner n uri_buf = some (Result.Err (Error.from_code n))) := by
  constructor
  · intro h
    have htake : (uri_buf.take (min n.toNat 256)).length = min n.toNat 256 := by
      rw [List.length_take, hbuf]
      exact min_eq_left (min_le_right _ _)
    refine ⟨_, by rw [uri_eval t owner n uri_buf hbuf, if_pos h], rfl, ?_⟩
    show (uri_buf.take (min n.toNat 256)
        ++ List.replicate (1024 - min n.toNat 256) 0).take (min n.toNat 256)
      = uri_buf.take (min n.toNat 256)
    exact List.take_left' htake
  · intro h
    rw [uri_eval t owner n uri_buf hbuf, if_neg (by omega)]

/-- C3 witness: host code 10 with a 256-byte scratch buffer of threes gives a
Blob of length min(10, 256) = 10 holding its first ten bytes. -/
theorem C3_amended_witness :
    ∃ b : Blob, NFToken.uri { id := List.replicate 32 0 }
      { bytes := List.replicate 20 0 } 10 (List.replicate 256 3)
        = some (Result.Ok b)
      ∧ b.len = min (Int.toNat 10) 256
      ∧ b.as_slice = (List.replicate 256 3).take (min (Int.toNat 10) 256) :=
  (C3_amended_uri _ _ 10 _ (by simp)).1 (by norm_num)

/-- C7: ownership is defined purely as lookup success: is_owned_by is true
exactly when the uri host call returns a strictly positive code, and
is_nft_owned_by is true exactly when the get_nft host call does; every error
kind, whatever its code, collapses to false with the kind discarded, and no
further semantic check is involved. -/
theorem C7_ownership_is_lookup_success (t : NFToken) (owner : AccountID)
    (c : Int) (uri_buf nft_id data : List Nat) (hbuf : uri_buf.length = 256) :
    t.is_owned_by owner c uri_buf = some (decide (0 < c))
    ∧ is_nft_owned_by owner nft_id c data = decide (0 < c) := by
  constructor
  · rw [NFToken.is_owned_by, uri_eval t owner c uri_buf hbuf]
    by_cases h : 0 < c <;> simp [h, Result.is_ok]
  · rw [is_nft_owned_by, get_nft]
    by_cases h : 0 < c <;> simp [h, Result.is_ok]

/-- C7 witness: host code 5 makes both checks true; the embedded checks
evaluate accordingly on concrete 20/32/256-byte buffers. -/
theorem C7_witness :
    NFToken.is_owned_by { id := List.replicate 32 0 }
      { bytes := List.replicate 20 0 } 5 (List.replicate 256 0)
      = some (decide ((0 : Int) < 5))
    ∧ is_nft_owned_by { bytes := List.replicate 20 0 } (List.replicate 32 0) 5
      (List.replicate 256 0) = decide ((0 : Int) < 5) :=
  C7_ownership_is_lookup_success _ _ 5 _ _ _ (by simp)

/-- C8: every accessor is a pure function of the identifier bytes and the
fixed host behaviour: two NFToken values carrying identical identifiers give
identical results for flags, transfer_fee, issuer, taxon, serial and uri under
the same host, so repeated calls with unchanged host state cannot diverge —
there is no hidden cache or state. -/
theorem C8_accessors_pure (h : Host) (t1 t2 : NFToken) (owner : AccountID)
    (hid : t1.id = t2.id) :
    flagsVia h t1 = flagsVia h t2
    ∧ transferFeeVia h t1 = transferFeeVia h t2
    ∧ issuerVia h t1 = issuerVia h t2
    ∧ taxonVia h t1 = taxonVia h t2
    ∧ serialVia h t1 = serialVia h t2
    ∧ uriVia h t1 owner = uriVia h t2 owner := by
  obtain ⟨i1⟩ := t1
  obtain ⟨i2⟩ := t2
  have h2 : i1 = i2 := hid
  subst h2
  exact ⟨rfl, rfl, rfl, rfl, rfl, rfl⟩

/-- C8 witness: the silent host and the all-zero identifier. -/
theorem C8_witness :
    flagsVia silentHost { id := List.replicate 32 0 }
      = flagsVia silentHost { id := List.replicate 32 0 }
    ∧ transferFeeVia silentHost { id := List.replicate 32 0 }
      = transferFeeVia silentHost { id := List.replicate 32 0 }
    ∧ issuerVia silentHost { id := List.replicate 32 0 }
      = issuerVia silentHost { id := List.replicate 32 0 }
    ∧ taxonVia silentHost { id := List.replicate 32 0 }
      = taxonVia silentHost { id := List.replicate 32 0 }
    ∧ serialVia silentHost { id := List.replicate 32 0 }
      = serialVia silentHost { id := List.replicate 32 0 }
    ∧ uriVia silentHost { id := List.replicate 32 0 } { bytes := List.replicate 20 0 }
      = uriVia silentHost { id := List.replicate 32 0 } { bytes := List.replicate 20 0 } :=
  C8_accessors_pure silentHost _ _ { bytes := List.replicate 20 0 } rfl

/-- C10: uri never trips the assertion of Blob::new: for every host code and
every 256-byte scratch buffer it returns some result — never the none that
models the panic — and the Blob inside a success has logical length at most
256, strictly within the 1024-byte capacity. -/
theorem C10_uri_no_panic (t : NFToken) (owner : AccountID) (c : Int)
    (uri_buf : List Nat) (hbuf : uri_buf.length = 256) :
    ∃ r : Result Blob, t.uri owner c uri_buf = some r
      ∧ Result.blobLen r ≤ 256 := by
  by_cases h : 0 < c
  · rw [uri_eval t owner c uri_buf hbuf, if_pos h]
    exact ⟨_, rfl, min_le_right _ _⟩
  · rw [uri_eval t owner c uri_buf hbuf, if_neg h]
    exact ⟨_, rfl, Nat.zero_le _⟩

/-- C10 witness: host code 77 against the 256-byte zero scratch buffer. -/
theorem C10_witness :
    ∃ r : Result Blob, NFToken.uri { id := List.replicate 32 0 }
      { bytes := List.replicate 20 0 } 77 (List.replicate 256 0) = some r
      ∧ Result.blobLen r ≤ 256 :=
  C10_uri_no_panic _ _ 77 _ (by simp)

/-- C1 counterexample: with the field-not-found code (-2) reported by the
nested-field host call for Memos[0].MemoData — the host saying the field is
absent — finish returns -2, a nonzero fatal code, not the 0 the claim
promises. -/
theorem C1_counterexample :
    finish (-2) (List.replicate 4096 0)
      (Result.Ok { bytes := List.replicate 20 0 }) 1 (List.replicate 4096 0)
      = -2
    ∧ ((-2 : Int) = 0 → False) := by
  exact ⟨rfl, by decide⟩

/-- C1 (amended): in finish, a field-not-found (or any negative) code from the
nested-field call is NOT turned into the 0 of condition-not-met: get_first_memo
wraps it as Err and finish surfaces the code verbatim as its return value, a
nonzero hard failure, exactly as it surfaces an internal error; a code of 0 is
surfaced as the internal-error code -1. finish returns 0 only through the
(unreachable) Ok(None) branch or a failed ownership check. -/
theorem C1_amended_absent_is_fatal (memoCode : Int) (memoData : ContractData)
    (destRes : Result AccountID) (nftCode : Int) (nftData : List Nat) :
    (memoCode < 0 →
      finish memoCode memoData destRes nftCode nftData = memoCode)
    ∧ (memoCode = 0 →
      finish memoCode memoData destRes nftCode nftData = -1) := by
  constructor
  · intro hneg
    have h1 : ¬ (0 < memoCode) := by omega
    have h2 : ¬ (memoCode = 0) := by omega
    simp only [finish, get_first_memo, if_neg h1, if_neg h2]
    exact Error.code_from_code memoCode
  · intro h0
    subst h0
    simp [finish, get_first_memo, Error.code]

/-- C2: a host code of exactly 0 takes different meanings at the two call
sites of identical shape: get_nft decodes it through the shared from_code
table (landing in the unrecognized-code catch-all, not InternalError) and
is_nft_owned_by collapses it to false, while get_first_memo maps 0 by a
dedicated match arm to the InternalError kind. -/
theorem C2_zero_code_two_meanings (owner : AccountID) (nft : List Nat)
    (data : List Nat) (memoData : ContractData) :
    get_nft owner nft 0 data = Result.Err (Error.from_code 0)
    ∧ is_nft_owned_by owner nft 0 data = false
    ∧ get_first_memo 0 memoData = Result.Err Error.InternalError
    ∧ Error.from_code 0 = Error.Unrecognized 0 := by
  refine ⟨rfl, rfl, rfl, rfl⟩

/-- C4 counterexample: for the non-negative host code 65536 the claim promises
Ok 65536, but flags and transfer_fee cast the code with (code as u16) and
return Ok 0. -/
theorem C4_counterexample :
    NFToken.flags { id := List.replicate 32 0 } 65536 = Result.Ok 0
    ∧ NFToken.transfer_fee { id := List.replicate 32 0 } 65536 = Result.Ok 0
    ∧ ((Result.Ok 0 : Result Nat) = Result.Ok 65536 → False) := by
  exact ⟨rfl, rfl, by decide⟩

/-- C4 (amended): for every non-negative host code c, flags and transfer_fee
return Ok (c mod 2^16) — the u16 cast of c, equal to c itself whenever
c < 65536 — and for every negative code the error decoded from that code; in
particular simulated code 1000 yields fee value 1000 and code -1 yields the
decoded InternalError, not a panic. -/
theorem C4_amended_flags_fee (t : NFToken) (c : Int) :
    (0 ≤ c →
      t.flags c = Result.Ok (c.toNat % 65536)
      ∧ t.transfer_fee c = Result.Ok (c.toNat % 65536))
    ∧ (c < 0 →
      t.flags c = Result.Err (Error.from_code c)
      ∧ t.transfer_fee c = Result.Err (Error.from_code c))
    ∧ (c < 65536 → 0 ≤ c → t.flags c = Result.Ok c.toNat
      ∧ t.transfer_fee c = Result.Ok c.toNat)
    ∧ t.transfer_fee 1000 = Result.Ok 1000
    ∧ t.transfer_fee (-1) = Result.Err Error.InternalError := by
  refine ⟨?_, ?_, ?_, rfl, rfl⟩
  · intro h
    simp [NFToken.flags, NFToken.transfer_fee, h]
  · intro h
    have h1 : ¬ (0 ≤ c) := by omega
    simp [NFToken.flags, NFToken.transfer_fee, h1]
  · intro hlt h
    have hm : c.toNat % 65536 = c.toNat := Nat.mod_eq_of_lt (by omega)
    simp [NFToken.flags, NFToken.transfer_fee, h, hm]

/-- C5: issuer, taxon and serial succeed exactly on a strictly positive host
code (0 is a failure); on success, taxon and serial decode the 4-byte output
buffer as a big-endian unsigned 32-bit integer — for every positive code,
whether or not it equals 4 — and issuer returns the 20-byte account buffer as
the host wrote it; on a non-positive code all three return the decoded
error. -/
theorem C5_issuer_taxon_serial (t : NFToken) (c : Int)
    (account_buf : List Nat) (b0 b1 b2 b3 : Nat) :
    (0 < c →
      t.issuer c account_buf = Result.Ok { bytes := account_buf }
      ∧ t.taxon c [b0, b1, b2, b3]
          = Result.Ok (((b0 * 256 + b1) * 256 + b2) * 256 + b3)
      ∧ t.serial c [b0, b1, b2, b3]
          = Result.Ok (((b0 * 256 + b1) * 256 + b2) * 256 + b3))
    ∧ (c ≤ 0 →
      t.issuer c account_buf = Result.Err (Error.from_code c)
      ∧ t.taxon c [b0, b1, b2, b3] = Result.Err (Error.from_code c)
      ∧ t.serial c [b0, b1, b2, b3] = Result.Err (Error.from_code c)) := by
  have hbe : u32_from_be_bytes [b0, b1, b2, b3]
      = ((b0 * 256 + b1) * 256 + b2) * 256 + b3 := by
    simp [u32_from_be_bytes, List.foldl]
  constructor
  · intro h
    simp [NFToken.issuer, NFToken.taxon, NFToken.serial, h, hbe]
  · intro h
    have h1 : ¬ (0 < c) := by omega
    simp [NFToken.issuer, NFToken.taxon, NFToken.serial, h1]

/-- C6: over the 1024-byte buffer, Blob::new succeeds for every logical length
n up to 1024 and the resulting as_slice has length exactly n, never more; for
every n beyond 1024 the construction trips the assertion (modelled as none), a
deterministic contract violation, not a recoverable error. -/
theorem C6_blob_new (data : List Nat) (n : Nat) (hdata : data.length = 1024) :
    (n ≤ 1024 → ∃ b : Blob, Blob.new data n = some b
      ∧ b.as_slice.length = n ∧ b.len = n)
    ∧ (1024 < n → Blob.new data n = none) := by
  constructor
  · intro h
    refine ⟨{ data := data, len := n }, ?_, ?_, rfl⟩
    · simp [Blob.new, hdata, h]
    · simp [Blob.as_slice, List.length_take, hdata]
      omega
  · intro h
    simp [Blob.new, hdata]
    omega

/-- C6 witness: the 1024-byte zero buffer with logical length 3. -/
theorem C6_blob_new_witness :
    ∃ b : Blob, Blob.new (List.replicate 1024 0) 3 = some b
      ∧ b.as_slice.length = 3 ∧ b.len = 3 :=
  (C6_blob_new (List.replicate 1024 0) 3 (by simp)).1 (by omega)

/-- C9: get_first_memo never produces Ok(None): for every host code and
buffer, the outcome is Ok(Some(data)) — exactly when the code is strictly
positive — or an Err; hence the None branch of finish, which would return 0,
can never be taken. -/
theorem C9_never_ok_none (c : Int) (data : ContractData) :
    (0 < c ∧ get_first_memo c data = Result.Ok (some data))
    ∨ (∃ e : Error, get_first_memo c data = Result.Err e) := by
  by_cases h : 0 < c
  · exact Or.inl ⟨h, by simp [get_first_memo, h]⟩
  · right
    by_cases h0 : c = 0
    · exact ⟨Error.InternalError, by simp [get_first_memo, h, h0]⟩
    · exact ⟨Error.from_code c, by simp [get_first_memo, h, h0]⟩

end XrplStd
